import Mathlib

/-!
Shallow embedding of the exifgeo reverse-geocoder core:
coordinate conversion (src/gps_info.rs), the municipality-code
cache subsystem (src/municd.rs), the reverse-geocode resolution
(src/reverse_geocoder.rs) and the per-file driver loop (src/main.rs).

Modelling decisions:
* Rust `f64` values are modelled as exact rationals (`Rat`); all the
  arithmetic the program performs on coordinates is the grade-school
  formula `deg + min/60 + sec/3600` with a sign flip.
* `Vec` indexing that can go out of bounds is modelled explicitly: the
  conversion result type has a `panicked` outcome for the case where the
  Rust code would panic with an index-out-of-bounds.
* The filesystem and the network are modelled as explicit environment
  values (file stat view, file content, fetch outcome) threaded through
  the functions that consume them; `load` additionally reports whether
  the network refresh path was taken.
* `serde_json` serialization is modelled at the JSON-AST level: the cache
  file content is a JSON value, and encoding/decoding of the mapping is
  embedded structurally.
* The Rust `regex` crate uses leftmost-first (Perl-like) match semantics;
  the fixed record pattern of src/municd.rs is embedded as a dedicated
  matcher with exactly those semantics for this pattern, with `.`
  matching any character except a newline, `\d` matching the Unicode
  decimal digits (general category `Nd`), and greedy `+` repetition.
* The `parse::<usize>` step of the refresh loop is modelled with its
  failure cases: a non-ASCII digit in the capture or a value above
  `usize::MAX` (64-bit platform) is an error that aborts the download.
-/

namespace Exifgeo

/-! ## Coordinate conversion (src/gps_info.rs) -/

/-- An Exif unsigned rational: numerator/denominator pair (`u32`/`u32`). -/
structure ExifRational where
  num : Nat
  den : Nat
deriving DecidableEq, Repr

/-- `Rational::to_f64`, modelled exactly over `Rat`. -/
def ExifRational.toRat (r : ExifRational) : Rat :=
  (r.num : Rat) / (r.den : Rat)

/-- The Exif field value variants relevant to `conv_degree`
(`exif::Value`); the GPS coordinate fields carry `Rational`. -/
inductive ExifValue where
  | byteV (bytes : List Nat)
  | ascii (s : String)
  | shortV (xs : List Nat)
  | longV (xs : List Nat)
  | rational (xs : List ExifRational)
  | srational (xs : List (Int × Int))
  | undef (bytes : List Nat)
deriving DecidableEq, Repr

/-- Outcome of `conv_degree`: a converted value, the
"invalid GPS location information" error, or a Rust panic
(out-of-bounds `Vec` index). -/
inductive ConvResult where
  | ok (v : Rat)
  | invalidFormat
  | panicked
deriving DecidableEq, Repr

/-- `conv_degree` of src/gps_info.rs: on a `Rational` value it reads
`fractions[0]`, `fractions[1]`, `fractions[2]` (panicking when the vector
is shorter than 3), computes `deg + min/60 + sec/3600` and negates when
the reference string is "S" or "W"; on every other value variant it
returns the invalid-format error. -/
def conv_degree (value : ExifValue) (reference : String) : ConvResult :=
  match value with
  | .rational fractions =>
    match fractions[0]?, fractions[1]?, fractions[2]? with
    | some d, some m, some s =>
      let sign : Rat := if reference = "S" ∨ reference = "W" then -1 else 1
      .ok ((d.toRat + (m.toRat / 60) + (s.toRat / 3600)) * sign)
    | _, _, _ => .panicked
  | _ => .invalidFormat

/-! ## Municipality records and the mapping (src/municd.rs) -/

/-- `MuniCdRecord`: municipality code, prefecture name, municipality
name. -/
structure MuniCdRecord where
  code : Nat
  pref : String
  town : String
deriving DecidableEq, Repr

/-- The full-width (ideographic) space U+3000 used as a formatting
separator inside municipality names. -/
def ideographicSpace : Char := Char.ofNat 0x3000

/-- `impl ToString for MuniCdRecord`: prefecture name followed by the
municipality name with every U+3000 removed
(`town.replace(U+3000, "")`). -/
def MuniCdRecord.to_string (r : MuniCdRecord) : String :=
  r.pref ++ String.mk (r.town.data.filter (fun c => c ≠ ideographicSpace))

/-- The municipality mapping (`HashMap<String, MuniCdRecord>`), modelled
as an association list with replace-on-insert semantics. -/
abbrev MuniMap : Type := List (String × MuniCdRecord)

/-- `HashMap::insert`: the new binding replaces any existing binding of
the same key. -/
def muniInsert (m : MuniMap) (k : String) (v : MuniCdRecord) : MuniMap :=
  (k, v) :: m.filter (fun p => p.1 ≠ k)

/-- `HashMap::get`. -/
def muniGet (m : MuniMap) (k : String) : Option MuniCdRecord :=
  (m.find? (fun p => p.1 = k)).map (·.2)

/-- Left-pad a string with the character `0` to width 6 (the string
padding `\x7b:0>6\x7d` used by `ApiResult::muni_code`). -/
def padStr6 (s : String) : String :=
  if s.length < 6 then String.mk (List.replicate (6 - s.length) '0') ++ s
  else s

/-- `format!("\x7b:06\x7d", code)`: the code's decimal representation
left-zero-padded to width 6. -/
def fmt06 (n : Nat) : String := padStr6 (Nat.repr n)

/-- The code-point ranges of the Unicode general category `Nd` (decimal
digit), Unicode 15.1 data as bundled with the regex crate's Unicode
tables: ASCII digits plus the decimal-digit blocks of the other
scripts. -/
def ndRanges : List (Nat × Nat) :=
  [(0x30, 0x39), (0x660, 0x669), (0x6F0, 0x6F9), (0x7C0, 0x7C9),
   (0x966, 0x96F), (0x9E6, 0x9EF), (0xA66, 0xA6F), (0xAE6, 0xAEF),
   (0xB66, 0xB6F), (0xBE6, 0xBEF), (0xC66, 0xC6F), (0xCE6, 0xCEF),
   (0xD66, 0xD6F), (0xDE6, 0xDEF), (0xE50, 0xE59), (0xED0, 0xED9),
   (0xF20, 0xF29), (0x1040, 0x1049), (0x1090, 0x1099), (0x17E0, 0x17E9),
   (0x1810, 0x1819), (0x1946, 0x194F), (0x19D0, 0x19D9),
   (0x1A80, 0x1A89), (0x1A90, 0x1A99), (0x1B50, 0x1B59),
   (0x1BB0, 0x1BB9), (0x1C40, 0x1C49), (0x1C50, 0x1C59),
   (0xA620, 0xA629), (0xA8D0, 0xA8D9), (0xA900, 0xA909),
   (0xA9D0, 0xA9D9), (0xA9F0, 0xA9F9), (0xAA50, 0xAA59),
   (0xABF0, 0xABF9), (0xFF10, 0xFF19), (0x104A0, 0x104A9),
   (0x10D30, 0x10D39), (0x11066, 0x1106F), (0x110F0, 0x110F9),
   (0x11136, 0x1113F), (0x111D0, 0x111D9), (0x112F0, 0x112F9),
   (0x11450, 0x11459), (0x114D0, 0x114D9), (0x11650, 0x11659),
   (0x116C0, 0x116C9), (0x11730, 0x11739), (0x118E0, 0x118E9),
   (0x11950, 0x11959), (0x11C50, 0x11C59), (0x11D50, 0x11D59),
   (0x11DA0, 0x11DA9), (0x11F50, 0x11F59), (0x16A60, 0x16A69),
   (0x16AC0, 0x16AC9), (0x16B50, 0x16B59), (0x1D7CE, 0x1D7FF),
   (0x1E140, 0x1E149), (0x1E2F0, 0x1E2F9), (0x1E4F0, 0x1E4F9),
   (0x1E950, 0x1E959), (0x1FBF0, 0x1FBF9)]

/-- `\d` in the Rust regex crate: a Unicode decimal digit (general
category `Nd`, `\p\x7bNd\x7d`), not only ASCII. -/
def isNd (c : Char) : Bool :=
  ndRanges.any (fun r => decide (r.1 ≤ c.toNat) && decide (c.toNat ≤ r.2))

/-- `usize::MAX` on the 64-bit build platform. -/
def USIZE_MAX : Nat := 2 ^ 64 - 1

/-- `str::parse::<usize>`: an optional leading `+`, then one or more
ASCII digits (a non-ASCII Unicode digit is an invalid-digit error), with
the value bounded by `usize::MAX` (overflow is an error). -/
def parseUsize (s : String) : Option Nat :=
  let digits := match s.data with
    | '+' :: rest => rest
    | l => l
  if digits.isEmpty then none
  else if digits.all Char.isDigit then
    let n := digits.foldl (fun acc c => acc * 10 + (c.toNat - 48)) 0
    if n ≤ USIZE_MAX then some n else none
  else none

/-! ## The record pattern of src/municd.rs

`RECORD_RE` is the fixed pattern
`GSI\.MUNI_ARRAY\["\d+"\] = '\d+,(.+),(\d+),(.+)'` (with a double-quote
around the first digit run). It is embedded as a dedicated matcher with
the leftmost-first greedy semantics of the Rust `regex` crate:
the match starts at the earliest possible position; `\d` matches a
Unicode decimal digit (`isNd`); each `\d+` is followed by a literal
character no digit can match, so it consumes a maximal nonempty digit
run; `(.+)` is greedy with backtracking, and `.` matches every character
except a newline. -/

/-- The single-quote character (U+0027). -/
def squote : Char := Char.ofNat 39

/-- What `.` matches: any character except a newline. -/
def isDot (c : Char) : Bool := c ≠ '\n'

/-- Match a literal character sequence, returning the rest. -/
def stripLit : List Char → List Char → Option (List Char)
  | [], s => some s
  | _ :: _, [] => none
  | l :: ls, c :: cs => if c = l then stripLit ls cs else none

/-- Greedy `(.+)'` at the very end of the pattern: the capture is
everything before the last single-quote reachable without crossing a
newline (longest capture first, per greedy backtracking). Returns `none`
when no such quote exists. -/
def beforeLastQuote : List Char → Option (List Char)
  | [] => none
  | c :: rest =>
    match beforeLastQuote rest with
    | some q => some (c :: q)
    | none => if c = squote then some [] else none

/-- The trailing group-3 part `(.+)'`: nonempty capture, no newline. -/
def matchGroup3 (u : List Char) : Option (List Char) :=
  match beforeLastQuote (u.takeWhile isDot) with
  | some q => if q.isEmpty then none else some q
  | none => none

/-- The tail `,(\d+),(.+)'` after a candidate group-1 capture: a comma, a
maximal nonempty digit run (group 2), a comma, then group 3. -/
def matchTail : List Char → Option (List Char × List Char)
  | [] => none
  | c :: rest =>
    if c = ',' then
      match rest.span isNd with
      | (code, r2) =>
        if code.isEmpty then none
        else
          match r2 with
          | ',' :: r3 =>
            match matchGroup3 r3 with
            | some town => some (code, town)
            | none => none
          | _ => none
    else none

/-- Greedy group 1 `(.+)`: try capture lengths from longest to shortest;
the first length whose capture crosses no newline and whose remainder
matches the tail wins. -/
def group1Loop (t : List Char) : Nat → Option (List Char × List Char × List Char)
  | 0 => none
  | i + 1 =>
    let p := t.take (i + 1)
    let rest := t.drop (i + 1)
    match (if p.all isDot then matchTail rest else none) with
    | some (code, town) => some (p, code, town)
    | none => group1Loop t i

/-- Attempt a match of the whole record pattern anchored at the head of
the input, returning the three captures (prefecture, code digits,
municipality). -/
def matchRecordAt (s : List Char) : Option (List Char × List Char × List Char) :=
  match stripLit ("GSI.MUNI_ARRAY[\"".data) s with
  | none => none
  | some s1 =>
    match s1.span isNd with
    | (idx, s2) =>
      if idx.isEmpty then none
      else
        match stripLit ("\"] = ".data ++ [squote]) s2 with
        | none => none
        | some s3 =>
          match s3.span isNd with
          | (d2, s4) =>
            if d2.isEmpty then none
            else
              match s4 with
              | ',' :: s5 => group1Loop s5 s5.length
              | _ => none

/-- `Regex::captures` for `RECORD_RE`: leftmost match wins. -/
def reCaptures : List Char → Option (List Char × List Char × List Char)
  | [] => none
  | s@(_ :: rest) =>
    match matchRecordAt s with
    | some caps => some caps
    | none => reCaptures rest

/-- Captured groups of a line as strings:
(prefecture, code digits, municipality). -/
def captures (line : String) : Option (String × String × String) :=
  (reCaptures line.data).map (fun (p, c, t) => (String.mk p, String.mk c, String.mk t))

/-! ## Cache refresh: `download` (src/municd.rs) -/

/-- The body of the `for line in ...lines()` loop of `download`: a line
matching `RECORD_RE` parses its code capture with
`captures[2].parse::<usize>()?` — a parse failure (overflow, or a
non-ASCII Unicode digit in the capture) aborts the whole download — and
inserts one record under the zero-padded 6-digit code key; a
non-matching line leaves the map unchanged. -/
def downloadStep (m : MuniMap) (line : String) : Except String MuniMap :=
  match captures line with
  | some (pref, codeStr, town) =>
    match parseUsize codeStr with
    | some code => .ok (muniInsert m (fmt06 code) ⟨code, pref, town⟩)
    | none => .error "parse muniCd code failed"
  | none => .ok m

/-- The mapping `download` builds from the fetched source text's lines
(the loop aborts at the first code-parse failure, as `?` does). -/
def buildMap (lines : List String) : Except String MuniMap :=
  lines.foldlM downloadStep ([] : MuniMap)

/-- Environment for the refresh path: the outcome of the network fetch
(an error, or the body's lines) and whether the cache write (directory
creation plus `std::fs::write`) succeeds. -/
structure NetEnv where
  fetch : Except String (List String)
  writeOk : Bool

/-- `download` of src/municd.rs: fetch the remote source text, build the
mapping from its lines, persist it, and return it; a fetch failure, a
code-parse failure inside the loop, or a write failure is propagated as
an error. -/
def download (net : NetEnv) : Except String MuniMap :=
  match net.fetch with
  | .error e => .error e
  | .ok lines =>
    match buildMap lines with
    | .error e => .error e
    | .ok ret => if net.writeOk then .ok ret else .error "write cache file failed"

/-! ## JSON model of the cache file (serde_json at the AST level) -/

/-- JSON values as far as the cache schema needs them. -/
inductive Json where
  | num (n : Nat)
  | str (s : String)
  | obj (fields : List (String × Json))

/-- Serialization of one record (`serde::Serialize` derive). -/
def recToJson (r : MuniCdRecord) : Json :=
  .obj [("code", .num r.code), ("pref", .str r.pref), ("town", .str r.town)]

/-- Deserialization of one record (`serde::Deserialize` derive): the
three fields must be present with the right shapes. -/
def recFromJson (j : Json) : Option MuniCdRecord :=
  match j with
  | .obj fields =>
    match fields.lookup "code", fields.lookup "pref", fields.lookup "town" with
    | some (.num code), some (.str pref), some (.str town) =>
      some ⟨code, pref, town⟩
    | _, _, _ => none
  | _ => none

/-- Serialization of the whole mapping: a JSON object keyed by the map's
keys. -/
def mapToJson (m : MuniMap) : Json :=
  .obj ((m : List (String × MuniCdRecord)).map (fun p => (p.1, recToJson p.2)))

/-- Deserialize a list of JSON object fields as mapping entries. -/
def entriesFromJson : List (String × Json) → Option (List (String × MuniCdRecord))
  | [] => some []
  | (k, jv) :: rest =>
    match recFromJson jv, entriesFromJson rest with
    | some r, some tail => some ((k, r) :: tail)
    | _, _ => none

/-- Deserialization of the whole mapping
(`serde_json::from_reader::<HashMap<String, MuniCdRecord>>`). -/
def mapFromJson (j : Json) : Option MuniMap :=
  match j with
  | .obj fields => entriesFromJson fields
  | _ => none

/-! ## Cache file freshness: `is_available` (src/municd.rs) -/

/-- `EXPIRE_DAYS`: validity window of the cache file, in days. -/
def EXPIRE_DAYS : Nat := 10

/-- File metadata view (`fs::Metadata`): the modification time in
seconds since the epoch, or `none` when `modified()` fails. -/
structure FileMeta where
  modified : Option Nat

/-- Stat view of the cache path: whether the path exists, and the
metadata (`none` when `metadata()` fails). -/
structure FileStat where
  present : Bool
  metadata : Option FileMeta

/-- `is_available` of src/municd.rs: the file exists, its metadata and
modification time are readable, `SystemTime::now().duration_since(mtime)`
succeeds (the mtime is not in the future), and the elapsed time is
strictly below `86400 * EXPIRE_DAYS` seconds. -/
def is_available (f : FileStat) (now : Nat) : Bool :=
  if !f.present then false
  else
    match f.metadata with
    | none => false
    | some meta =>
      match meta.modified with
      | none => false
      | some mtime =>
        if now < mtime then false
        else decide (now - mtime < 86400 * EXPIRE_DAYS)

/-! ## Cache load: `load_from_cache` and `load` (src/municd.rs) -/

/-- What opening and reading the cache file yields: an open failure, or
the file's (JSON-parsed) content. -/
inductive FileContent where
  | unopenable
  | json (j : Json)

/-- The cache-file side of the environment: stat view plus content. -/
structure CacheEnv where
  stat : FileStat
  content : FileContent

/-- `load_from_cache` of src/municd.rs: reject an unavailable (missing,
unreadable or expired) file, then open it and deserialize its JSON. -/
def load_from_cache (env : CacheEnv) (now : Nat) : Except String MuniMap :=
  if !is_available env.stat now then .error "cache file is expired."
  else
    match env.content with
    | .unopenable => .error "open cache file failed"
    | .json j =>
      match mapFromJson j with
      | some m => .ok m
      | none => .error "parse JSON failed"

/-- `load` of src/municd.rs: return the cached mapping when the cache
read succeeds, otherwise fall back to `download`. The second component
records whether the network refresh path was taken. -/
def load (env : CacheEnv) (now : Nat) (net : NetEnv) :
    Except String MuniMap × Bool :=
  match load_from_cache env now with
  | .ok m => (.ok m, false)
  | .error _ => (download net, true)

/-! ## Reverse-geocode resolution: `query` (src/reverse_geocoder.rs) -/

/-- Decoded reverse-geocode response (`GeometoryInfo`): the raw
municipality-code string (`muniCd`) and the area name (`lv01Nm`). -/
structure ApiResult where
  muni_code : String
  area_name : String

/-- `ApiResult::muni_code`: the raw code string left-zero-padded to
width 6. -/
def ApiResult.muniCode6 (r : ApiResult) : String := padStr6 r.muni_code

/-- The join step of `ReverseGeocoder::query` once a response has been
decoded: look the padded code up in the mapping; on a hit concatenate the
record's display string with the area name, on a miss prepend the fixed
degraded marker. -/
def queryJoin (municd : MuniMap) (r : ApiResult) : String :=
  match muniGet municd r.muniCode6 with
  | some muni => muni.to_string ++ r.area_name
  | none => "????? " ++ r.area_name

/-- `ReverseGeocoder::query`: the network fetch and JSON decode may fail
(modelled by the `Except` argument); a decoded response always produces a
joined address string. -/
def query (municd : MuniMap) (response : Except String ApiResult) :
    Except String String :=
  match response with
  | .error e => .error e
  | .ok r => .ok (queryJoin municd r)

/-! ## Driver loop: `run` (src/main.rs) -/

/-- Outcome of `gps_info::read` for one file: a read error, no GPS
information present, or a coordinate pair. -/
inductive GpsResult where
  | err (e : String)
  | noInfo
  | coords (lat lng : Rat)

/-- The per-file report the loop emits (which of `query_succeed`,
`query_failed`, `gps_info_none`, `read_failed` ran, and for which
file). -/
inductive Report where
  | succeeded (file addr : String) (lat lng : Rat)
  | queryFailed (file e : String) (lat lng : Rat)
  | gpsInfoNone (file : String)
  | readFailed (file e : String)
deriving DecidableEq, Repr

/-- The file a report is about. -/
def Report.file : Report → String
  | .succeeded f _ _ _ => f
  | .queryFailed f _ _ _ => f
  | .gpsInfoNone f => f
  | .readFailed f _ => f

/-- One iteration of the `for file in opts.target_files()` loop: every
failure arm reports and continues. -/
def processFile (q : Rat → Rat → Except String String)
    (gps : String → GpsResult) (file : String) : Report :=
  match gps file with
  | .err e => .readFailed file e
  | .noInfo => .gpsInfoNone file
  | .coords lat lng =>
    match q lat lng with
    | .ok addr => .succeeded file addr lat lng
    | .error e => .queryFailed file e lat lng

/-- The loop over the target files, as written (each arm continues to the
next file). -/
def runLoop (q : Rat → Rat → Except String String)
    (gps : String → GpsResult) : List String → List Report
  | [] => []
  | file :: rest => processFile q gps file :: runLoop q gps rest

/-- `run` of src/main.rs: build the geocoder (propagating a cache-load
failure), then process every target file, returning the reports the loop
emitted alongside `Ok(())`. -/
def run (loadResult : Except String MuniMap)
    (gps : String → GpsResult)
    (q : MuniMap → Rat → Rat → Except String String)
    (files : List String) : Except String (List Report) :=
  match loadResult with
  | .error e => .error e
  | .ok municd => .ok (runLoop (q municd) gps files)

/-! ## Concrete sample values used by the concrete scenarios -/

/-- The sample source line of the spec:
`GSI.MUNI_ARRAY["1"] = '1,Tokyo,13101,Chiyoda City'`. -/
def sampleLine : String :=
  "GSI.MUNI_ARRAY[\"1\"] = " ++ String.mk [squote] ++
    "1,Tokyo,13101,Chiyoda City" ++ String.mk [squote]

/-- A line holding no record. -/
def junkLine : String := "var GSI = GSI || function () \x7b\x7d;"

/-- The record the sample line yields. -/
def sampleRecord : MuniCdRecord := ⟨13101, "Tokyo", "Chiyoda City"⟩

/-- A line that matches the record pattern but whose 20-digit code
capture overflows `usize`, so the real download aborts with a parse
error. -/
def overflowLine : String :=
  "GSI.MUNI_ARRAY[\"1\"] = " ++ String.mk [squote] ++
    "1,Foo,99999999999999999999,Bar" ++ String.mk [squote]

/-- A line whose code capture is written with Arabic-Indic digits
(U+0661 U+0663): regex `\d` matches them, but `parse::<usize>` rejects
them, so the real download aborts with a parse error. -/
def arabicDigitLine : String :=
  "GSI.MUNI_ARRAY[\"1\"] = " ++ String.mk [squote] ++ "1,Foo," ++
    String.mk [Char.ofNat 0x661, Char.ofNat 0x663] ++ ",Bar" ++
    String.mk [squote]

/-- A municipality name holding the full-width-space separator. -/
def sampleTown : String := "Chiyoda" ++ String.mk [ideographicSpace] ++ "City"

/-- A one-entry mapping whose municipality name holds the separator. -/
def sampleMap : MuniMap := [("013101", ⟨13101, "Tokyo", sampleTown⟩)]

instance {α β : Type} [DecidableEq α] [DecidableEq β] : DecidableEq (Except α β) :=
  fun a b =>
    match a, b with
    | .ok x, .ok y =>
      if h : x = y then .isTrue (by rw [h]) else .isFalse (by simp [h])
    | .error x, .error y =>
      if h : x = y then .isTrue (by rw [h]) else .isFalse (by simp [h])
    | .ok _, .error _ => .isFalse (by simp)
    | .error _, .ok _ => .isFalse (by simp)

/-! # Theorems -/

/-- C1 (counterexample): a `Rational`-encoded field holding only two
components makes `conv_degree` panic with an out-of-bounds index — it
does not return the invalid-format error, refuting the claim that every
non-triplet-shaped field yields `InvalidFormat` and that the conversion
never panics. -/
theorem conv_degree_short_rational_panics :
    conv_degree (.rational [⟨1, 1⟩, ⟨2, 1⟩]) "N" = .panicked ∧
    conv_degree (.rational [⟨1, 1⟩, ⟨2, 1⟩]) "N" ≠ .invalidFormat := by
  decide

/-- C1 (amended): `conv_degree` returns the invalid-format error exactly
for the values not `Rational`-encoded; a `Rational` value with fewer than
three components makes it panic (out-of-bounds `Vec` index), and one with
three or more components converts the first three. -/
theorem conv_degree_shape_outcome (v : ExifValue) (ref : String) :
    conv_degree v ref =
      (match v with
      | .rational (d :: m :: s :: _) =>
        .ok ((d.toRat + m.toRat / 60 + s.toRat / 3600) *
          (if ref = "S" ∨ ref = "W" then -1 else 1))
      | .rational _ => .panicked
      | _ => .invalidFormat) := by
  match v with
  | .byteV _ => rfl
  | .ascii _ => rfl
  | .shortV _ => rfl
  | .longV _ => rfl
  | .rational [] => rfl
  | .rational [_] => rfl
  | .rational [_, _] => rfl
  | .rational (_ :: _ :: _ :: _) =>
    simp only [conv_degree, List.getElem?_cons_zero, List.getElem?_cons_succ]
  | .srational _ => rfl
  | .undef _ => rfl

/-- C3: on every 3-element rational triplet the conversion yields
`(deg + min/60 + sec/3600)`, negated exactly when the reference is "S" or
"W" and positive for every other reference; in particular (35,0,0) with
"N" yields 35 and (139,30,0) with "E" yields 139.5. -/
theorem conv_degree_triplet_value (d m s : ExifRational) (ref : String) :
    conv_degree (.rational [d, m, s]) ref =
      .ok ((d.toRat + m.toRat / 60 + s.toRat / 3600) *
        (if ref = "S" ∨ ref = "W" then -1 else 1)) ∧
    conv_degree (.rational [⟨35, 1⟩, ⟨0, 1⟩, ⟨0, 1⟩]) "N" = .ok 35 ∧
    conv_degree (.rational [⟨139, 1⟩, ⟨30, 1⟩, ⟨0, 1⟩]) "E" = .ok (279 / 2) := by
  refine ⟨?_, ?_, ?_⟩
  · simp only [conv_degree, List.getElem?_cons_zero, List.getElem?_cons_succ]
  · norm_num [conv_degree, ExifRational.toRat]
    all_goals decide
  · norm_num [conv_degree, ExifRational.toRat]
    all_goals decide

/-- C2: on every decoded reverse-geocode response `query` succeeds; when
the zero-padded code is a key of the mapping the result is the record's
prefecture name, then the municipality name with every U+3000 removed,
then the area name, with no added separators; when the code is absent the
result is the fixed marker "????? " followed by the area name. The two
concrete conjuncts exercise a hit (with a separator actually stripped)
and a miss. -/
theorem query_join_spec (m : MuniMap) (r : ApiResult) :
    query m (.ok r) =
      .ok (match muniGet m (padStr6 r.muni_code) with
        | some muni => muni.pref ++
            String.mk (muni.town.data.filter (fun c => c ≠ ideographicSpace)) ++
            r.area_name
        | none => "????? " ++ r.area_name) ∧
    query sampleMap (.ok ⟨"13101", "Kanda"⟩) = .ok "TokyoChiyodaCityKanda" ∧
    query sampleMap (.ok ⟨"99999", "Nowhere"⟩) = .ok "????? Nowhere" := by
  refine ⟨?_, by decide, by decide⟩
  unfold query
  cases h : muniGet m (padStr6 r.muni_code) <;>
    simp [queryJoin, ApiResult.muniCode6, h, MuniCdRecord.to_string]

/-- C4: the cache file is judged usable exactly when it exists, its
metadata and modification time are readable, the modification time is not
in the future, and strictly less than `86400 * EXPIRE_DAYS` seconds have
elapsed since it. -/
theorem is_available_iff (f : FileStat) (now : Nat) :
    is_available f now = true ↔
      f.present = true ∧
        ∃ meta, f.metadata = some meta ∧
          ∃ mtime, meta.modified = some mtime ∧ mtime ≤ now ∧
            now - mtime < 86400 * EXPIRE_DAYS := by
  obtain ⟨p, md⟩ := f
  match p, md with
  | false, _ => simp [is_available]
  | true, none => simp [is_available]
  | true, some ⟨none⟩ => simp [is_available]
  | true, some ⟨some t⟩ =>
    show (if now < t then false
      else decide (now - t < 86400 * EXPIRE_DAYS)) = true ↔ _
    by_cases h : now < t
    · rw [if_pos h]
      constructor
      · intro hfalse
        simp at hfalse
      · rintro ⟨-, meta, hmeta, mtime, hmt, hle, -⟩
        simp only [Option.some.injEq] at hmeta
        subst hmeta
        simp only [Option.some.injEq] at hmt
        omega
    · rw [if_neg h]
      simp only [decide_eq_true_eq]
      constructor
      · intro hlt
        exact ⟨by trivial, ⟨some t⟩, rfl, t, rfl, by omega, hlt⟩
      · rintro ⟨-, meta, hmeta, mtime, hmt, -, hlt⟩
        simp only [Option.some.injEq] at hmeta
        subst hmeta
        simp only [Option.some.injEq] at hmt
        subst hmt
        exact hlt

/-- Helper: a fresh, parseable cache file makes `load` return the parsed
mapping without taking the refresh path. -/
theorem load_of_fresh_parse (env : CacheEnv) (now : Nat) (net : NetEnv)
    (m : MuniMap) (j : Json)
    (havail : is_available env.stat now = true)
    (hcontent : env.content = .json j)
    (hparse : mapFromJson j = some m) :
    load env now net = (.ok m, false) := by
  simp [load, load_from_cache, havail, hcontent, hparse]

/-- Helper: deserializing the serialization of a list of mapping entries
gives the entries back. -/
theorem entries_roundtrip (l : List (String × MuniCdRecord)) :
    entriesFromJson (l.map fun p => (p.1, recToJson p.2)) = some l := by
  induction l with
  | nil => rfl
  | cons p rest ih =>
    obtain ⟨k, r⟩ := p
    show entriesFromJson ((k, recToJson r) :: rest.map fun p => (p.1, recToJson p.2)) = _
    unfold entriesFromJson
    rw [ih]
    rfl

/-- Helper: JSON round-trip of the whole mapping. -/
theorem map_json_roundtrip (m : MuniMap) : mapFromJson (mapToJson m) = some m :=
  entries_roundtrip m

/-- C5: when the cache file exists, is fresh and parses as the mapping
schema, `load` returns exactly the deserialized mapping and does not take
the network refresh path. -/
theorem load_fresh_cache_no_network (env : CacheEnv) (now : Nat) (net : NetEnv)
    (m : MuniMap) (j : Json)
    (havail : is_available env.stat now = true)
    (hcontent : env.content = .json j)
    (hparse : mapFromJson j = some m) :
    load env now net = (.ok m, false) :=
  load_of_fresh_parse env now net m j havail hcontent hparse

/-- C5 witness: a concrete fresh, parseable cache environment. -/
theorem load_fresh_cache_no_network_witness :
    load ⟨⟨true, some ⟨some 0⟩⟩, .json (.obj [])⟩ 0 ⟨.error "offline", false⟩ =
      (.ok ([] : MuniMap), false) :=
  load_fresh_cache_no_network ⟨⟨true, some ⟨some 0⟩⟩, .json (.obj [])⟩ 0
    ⟨.error "offline", false⟩ [] (.obj []) (by decide) rfl rfl

/-- C7: a mapping serialized to JSON and written as the cache file, then
loaded while the file is fresh, comes back equal to the original (and the
load takes no network access). -/
theorem persist_load_roundtrip (m : MuniMap) (t now : Nat) (net : NetEnv)
    (h1 : t ≤ now) (h2 : now - t < 86400 * EXPIRE_DAYS) :
    load ⟨⟨true, some ⟨some t⟩⟩, .json (mapToJson m)⟩ now net = (.ok m, false) :=
  load_of_fresh_parse _ now net m (mapToJson m)
    (by
      show (if now < t then false
        else decide (now - t < 86400 * EXPIRE_DAYS)) = true
      rw [if_neg (by omega)]
      exact decide_eq_true h2)
    rfl (map_json_roundtrip m)

/-- C7 witness: round-trip of a concrete one-entry mapping at concrete
times. -/
theorem persist_load_roundtrip_witness :
    load ⟨⟨true, some ⟨some 0⟩⟩, .json (mapToJson sampleMap)⟩ 5
        ⟨.error "offline", true⟩ = (.ok sampleMap, false) :=
  persist_load_roundtrip sampleMap 0 5 ⟨.error "offline", true⟩
    (by decide) (by decide)

/-- C8: whenever the cache read fails (missing file, unreadable metadata,
expiry, open failure or JSON parse failure), `load` takes the refresh
path unconditionally and returns exactly what `download` returns, so an
error surfaced by `load` can only originate from the refresh step. -/
theorem load_cache_failure_refreshes (env : CacheEnv) (now : Nat) (net : NetEnv)
    (e : String) (h : load_from_cache env now = .error e) :
    load env now net = (download net, true) := by
  unfold load
  rw [h]

/-- C8 witness: a missing cache file with a failing network fetch. -/
theorem load_cache_failure_refreshes_witness :
    load ⟨⟨false, none⟩, .unopenable⟩ 0 ⟨.error "offline", true⟩ =
      (download ⟨.error "offline", true⟩, true) :=
  load_cache_failure_refreshes ⟨⟨false, none⟩, .unopenable⟩ 0
    ⟨.error "offline", true⟩ "cache file is expired." (by decide)

/-- Helper: a line that matches no record leaves the mapping
unchanged. -/
theorem downloadStep_of_no_capture (m : MuniMap) (l : String)
    (h : captures l = none) : downloadStep m l = .ok m := by
  simp [downloadStep, h]

/-- Helper: non-matching lines contribute nothing to the fold, whatever
mapping it starts from. -/
theorem foldlM_downloadStep_filter (lines : List String) (m : MuniMap) :
    lines.foldlM downloadStep m =
      (lines.filter fun l => (captures l).isSome).foldlM downloadStep m := by
  induction lines generalizing m with
  | nil => rfl
  | cons l rest ih =>
    by_cases h : (captures l).isSome
    · rw [List.filter_cons_of_pos (by simpa using h)]
      simp only [List.foldlM_cons]
      cases hs : downloadStep m l with
      | error e => rfl
      | ok m1 =>
        show List.foldlM downloadStep m1 rest = _
        exact ih m1
    · rw [List.filter_cons_of_neg (by simpa using h)]
      simp only [List.foldlM_cons]
      rw [downloadStep_of_no_capture m l (Option.not_isSome_iff_eq_none.mp h)]
      exact ih m

/-- Helper: extending a successfully folded line list by one line runs
exactly one more loop step. -/
theorem buildMap_append_ok (lines : List String) (m : MuniMap)
    (hb : buildMap lines = .ok m) (line : String) :
    buildMap (lines ++ [line]) = downloadStep m line := by
  unfold buildMap at hb ⊢
  rw [List.foldlM_append, hb]
  show List.foldlM downloadStep m [line] = _
  simp only [List.foldlM_cons, List.foldlM_nil]
  exact bind_pure (downloadStep m line)

/-- C6 (counterexample): a line that matches the record pattern but
whose 20-digit code capture overflows `usize` yields no record at all —
`parse::<usize>()?` aborts the whole refresh with an error instead of
inserting the record the claim promises, and `download` on a fetch
consisting of that line fails rather than returning a mapping. -/
theorem download_matching_line_aborts :
    captures overflowLine = some ("Foo", "99999999999999999999", "Bar") ∧
    buildMap [overflowLine] = .error "parse muniCd code failed" ∧
    download ⟨.ok [overflowLine], true⟩ = .error "parse muniCd code failed" := by
  refine ⟨by decide, by decide, by decide⟩

/-- C6 (amended): whenever the cache read fails, `load` takes the
refresh path and returns exactly `download`'s result; the refresh builds
the mapping line by line against the fixed record pattern, where a
non-matching line contributes no record, a matching line whose code
capture parses as `usize` yields exactly one record inserted under its
zero-padded 6-digit code key, and a matching line whose code capture
fails `usize` parsing (overflow, or non-ASCII Unicode digits) aborts the
refresh with an error; the sample line yields the record
(13101, Tokyo, Chiyoda City) under key "013101", a non-record line
yields nothing, and a line with an Arabic-Indic digit code matches but
aborts. -/
theorem download_build_from_lines :
    (∀ env now net e, load_from_cache env now = .error e →
      load env now net = (download net, true)) ∧
    (∀ lines : List String,
      buildMap lines = buildMap (lines.filter fun l => (captures l).isSome)) ∧
    (∀ lines m line pref codeStr town code,
      buildMap lines = .ok m →
      captures line = some (pref, codeStr, town) →
      parseUsize codeStr = some code →
      buildMap (lines ++ [line]) =
        .ok (muniInsert m (fmt06 code) ⟨code, pref, town⟩)) ∧
    (∀ lines m line pref codeStr town,
      buildMap lines = .ok m →
      captures line = some (pref, codeStr, town) →
      parseUsize codeStr = none →
      buildMap (lines ++ [line]) = .error "parse muniCd code failed") ∧
    captures sampleLine = some ("Tokyo", "13101", "Chiyoda City") ∧
    buildMap [sampleLine] = .ok [("013101", sampleRecord)] ∧
    captures junkLine = none ∧
    buildMap [junkLine, sampleLine] = .ok [("013101", sampleRecord)] ∧
    captures arabicDigitLine =
      some ("Foo", String.mk [Char.ofNat 0x661, Char.ofNat 0x663], "Bar") ∧
    buildMap [arabicDigitLine] = .error "parse muniCd code failed" := by
  refine ⟨?_, ?_, ?_, ?_, by decide, by decide, by decide, by decide,
    by decide, by decide⟩
  · intro env now net e h
    unfold load
    rw [h]
  · intro lines
    exact foldlM_downloadStep_filter lines []
  · intro lines m line pref codeStr town code hb hc hp
    rw [buildMap_append_ok lines m hb line]
    unfold downloadStep
    simp only [hc, hp]
  · intro lines m line pref codeStr town hb hc hp
    rw [buildMap_append_ok lines m hb line]
    unfold downloadStep
    simp only [hc, hp]

/-- C6 witness: appending the sample line to a folded non-record line
inserts exactly the sample record under its zero-padded key. -/
theorem download_build_from_lines_witness :
    buildMap ([junkLine] ++ [sampleLine]) =
      .ok (muniInsert [] (fmt06 13101) ⟨13101, "Tokyo", "Chiyoda City"⟩) :=
  download_build_from_lines.2.2.1 [junkLine] [] sampleLine "Tokyo" "13101"
    "Chiyoda City" 13101 (by decide) (by decide) (by decide)

/-- Helper: one successful loop step preserves the key invariant. -/
theorem downloadStep_keys (m0 : MuniMap) (l : String) (m1 : MuniMap)
    (hs : downloadStep m0 l = .ok m1)
    (hm : ∀ p ∈ m0, p.1 = fmt06 p.2.code) :
    ∀ p ∈ m1, p.1 = fmt06 p.2.code := by
  unfold downloadStep at hs
  cases hc : captures l with
  | none =>
    simp only [hc] at hs
    have h' : m0 = m1 := by injection hs
    subst h'
    exact hm
  | some caps =>
    obtain ⟨pref, codeStr, town⟩ := caps
    cases hp : parseUsize codeStr with
    | none =>
      simp only [hc, hp] at hs
      exact Except.noConfusion hs
    | some code =>
      simp only [hc, hp] at hs
      have h' : muniInsert m0 (fmt06 code) ⟨code, pref, town⟩ = m1 := by
        injection hs
      subst h'
      intro p hpmem
      simp only [muniInsert, List.mem_cons] at hpmem
      rcases hpmem with h | h
      · subst h; rfl
      · exact hm p (List.mem_of_mem_filter h)

/-- Helper: the key invariant is preserved along the whole (fallible)
fold of `downloadStep`. -/
theorem foldlM_downloadStep_keys (lines : List String) :
    ∀ m0 : MuniMap, (∀ p ∈ m0, p.1 = fmt06 p.2.code) →
    ∀ m : MuniMap, lines.foldlM downloadStep m0 = .ok m →
    ∀ p ∈ m, p.1 = fmt06 p.2.code := by
  induction lines with
  | nil =>
    intro m0 hm m hb
    have hb' : (Except.ok m0 : Except String MuniMap) = .ok m := hb
    have h' : m0 = m := by injection hb'
    subst h'
    exact hm
  | cons l rest ih =>
    intro m0 hm m hb
    simp only [List.foldlM_cons] at hb
    cases hs : downloadStep m0 l with
    | error e =>
      rw [hs] at hb
      have hb' : (Except.error e : Except String MuniMap) = .ok m := hb
      cases hb'
    | ok m1 =>
      rw [hs] at hb
      have hb' : List.foldlM downloadStep m1 rest = .ok m := hb
      exact ih m1 (downloadStep_keys m0 l m1 hs hm) m hb'

/-- Helper: zero-padded keys of codes below 1000000 have exactly 6
characters. -/
theorem fmt06_length (n : Nat) (h : n < 1000000) : (fmt06 n).length = 6 := by
  have hlen : (Nat.repr n).length ≤ 6 :=
    Nat.repr_length n 6 (by omega) (by norm_num; omega)
  unfold fmt06 padStr6
  by_cases hlt : (Nat.repr n).length < 6
  · rw [if_pos hlt]
    rw [String.length_append]
    have : (String.mk (List.replicate (6 - (Nat.repr n).length) '0')).length
        = 6 - (Nat.repr n).length := by
      show (List.replicate _ '0').length = _
      simp
    omega
  · rw [if_neg hlt]
    omega

/-- C10: every (key, record) pair of any mapping the refresh path
successfully builds has its key equal to the record's code rendered in
decimal and left-zero-padded to width 6; for codes below 1000000 the key
has exactly 6 characters. -/
theorem refresh_key_invariant (lines : List String) (m : MuniMap)
    (key : String) (r : MuniCdRecord)
    (hb : buildMap lines = .ok m) (h : (key, r) ∈ m) :
    key = fmt06 r.code ∧ (r.code < 1000000 → key.length = 6) := by
  have hkey : key = fmt06 r.code :=
    foldlM_downloadStep_keys lines [] (by simp) m hb (key, r) h
  refine ⟨hkey, fun hc => ?_⟩
  rw [hkey]
  exact fmt06_length r.code hc

/-- C10 witness: the entry built from the sample line. -/
theorem refresh_key_invariant_witness :
    "013101" = fmt06 sampleRecord.code ∧
      (sampleRecord.code < 1000000 → ("013101" : String).length = 6) :=
  refresh_key_invariant [sampleLine] [("013101", sampleRecord)] "013101"
    sampleRecord (by decide) (by decide)

/-- Helper: whatever a file's GPS read and query outcomes are, the loop
body emits a report about that file. -/
theorem processFile_file (q : Rat → Rat → Except String String)
    (gps : String → GpsResult) (file : String) :
    (processFile q gps file).file = file := by
  unfold processFile
  cases gps file with
  | err e => rfl
  | noInfo => rfl
  | coords lat lng =>
    cases hq : q lat lng with
    | ok addr => simp only [hq]; rfl
    | error e => simp only [hq]; rfl

/-- C9: once the cache load has succeeded, `run` returns `Ok` and the
loop reaches every target file: it emits exactly one report per file, in
order, whatever each file's GPS-read and query outcomes are (so a
per-file failure never aborts the remaining files). -/
theorem run_processes_all_files (m : MuniMap) (gps : String → GpsResult)
    (q : MuniMap → Rat → Rat → Except String String) (files : List String)
    (loadResult : Except String MuniMap) (h : loadResult = .ok m) :
    ∃ reports, run loadResult gps q files = .ok reports ∧
      reports.map Report.file = files := by
  subst h
  refine ⟨runLoop (q m) gps files, rfl, ?_⟩
  induction files with
  | nil => rfl
  | cons f rest ih =>
    show (processFile (q m) gps f).file :: (runLoop (q m) gps rest).map Report.file = _
    rw [processFile_file, ih]

/-- C9 witness: a run over three files in which the first file's GPS read
fails, the second file has no location and the third file's query errors;
all three files are reported and the run still returns `Ok`. -/
theorem run_processes_all_files_witness :
    ∃ reports,
      run (.ok ([] : MuniMap))
        (fun f => if f = "a.jpg" then .err "broken"
          else if f = "b.jpg" then .noInfo else .coords 35 139)
        (fun _ _ _ => .error "offline")
        ["a.jpg", "b.jpg", "c.jpg"] = .ok reports ∧
      reports.map Report.file = ["a.jpg", "b.jpg", "c.jpg"] :=
  run_processes_all_files [] _ _ ["a.jpg", "b.jpg", "c.jpg"] _ rfl

end Exifgeo
